import Mathlib

/-!
Verification development for the BerlinGenossenschaftenScraper repository.

The repository ships two entry points:
* `run.py` — CLI scraper: `load_search_params` builds `SearchParameters` from
  environment variables, `search_apartments` fetches listings through
  `ApartmentSearchInterface`, persists timestamped reports, and (when enabled)
  passes the full result list to `NotificationManager.notify`.
* `main.py` — `BerlinHousingApp`: `load_config` at construction,
  a `search` method that catches every exception and returns `[]`,
  `save_results` writing a timestamped file plus `results/latest.json`,
  Flask routes `api_search` (temporary config override/restore) and
  `api_latest`, plus `run_worker` / `run_scheduler` / `run_once` loops.

Python is embedded shallowly: environment access becomes a function
`String → Option String`, exceptions become `Except`, the file system becomes
an association list, and wall-clock timestamps become explicit parameters.
Python `float` configuration values are modelled as `Rat`.
-/

/-! ## Python string primitives (structural recursion, kernel-evaluable) -/

/-- Splits a character list at every occurrence of `c`, Python
`str.split(sep)` semantics: `"".split(',') = [""]`, separators are not kept. -/
def splitCharAux (c : Char) : List Char → List Char → List (List Char)
  | [], acc => [acc.reverse]
  | x :: xs, acc =>
    if x = c then acc.reverse :: splitCharAux c xs []
    else splitCharAux c xs (x :: acc)

/-- Python `s.split(sep)` for a one-character separator. -/
def pySplit (s : String) (c : Char) : List String :=
  (splitCharAux c s.data []).map String.mk

/-- Whitespace recognizer used by Python `str.strip`. -/
def pySpace (c : Char) : Bool :=
  c = ' ' || c = '\t' || c = '\n' || c = '\r'

/-- Drops leading whitespace characters. -/
def dropSpaces : List Char → List Char
  | [] => []
  | c :: cs => if pySpace c then dropSpaces cs else c :: cs

/-- Python `str.strip()`: removes leading and trailing whitespace. -/
def pyStrip (s : String) : String :=
  String.mk (((dropSpaces s.data).reverse |> dropSpaces).reverse)

/-- Lower-cases one ASCII character, Python `str.lower` restricted to the
ASCII configuration values that occur in this program. -/
def lowerChar (c : Char) : Char :=
  if 'A' ≤ c ∧ c ≤ 'Z' then Char.ofNat (c.toNat + 32) else c

/-- Python `str.lower()` on ASCII strings. -/
def pyLower (s : String) : String :=
  String.mk (s.data.map lowerChar)

/-- Reads a non-empty digit run as a natural number; `none` on any
non-digit character. -/
def digitsToNatAux : List Char → Nat → Option Nat
  | [], acc => some acc
  | c :: cs, acc =>
    if c.isDigit then digitsToNatAux cs (acc * 10 + (c.toNat - 48)) else none

/-- Digit-run parser; the empty list is rejected like Python `float("")`. -/
def digitsToNat : List Char → Option Nat
  | [] => none
  | c :: cs => digitsToNatAux (c :: cs) 0

/-- Parses an unsigned decimal literal (`"12"`, `"12.5"`, `".5"`, `"5."`)
to a rational. -/
def parseUnsignedFloat (cs : List Char) : Option Rat :=
  match splitCharAux '.' cs [] with
  | [ip] => (digitsToNat ip).map (fun n => (n : Rat))
  | [ip, fp] =>
    if ip.isEmpty && fp.isEmpty then none
    else
      match (if ip.isEmpty then some 0 else digitsToNat ip),
            (if fp.isEmpty then some 0 else digitsToNat fp) with
      | some hi, some lo => some ((hi : Rat) + (lo : Rat) / ((10 : Rat) ^ fp.length))
      | _, _ => none
  | _ => none

/-- Models Python `float(s)` on the plain decimal literals this program's
configuration uses (optional sign, digits, optional fractional part;
whitespace padding, exponents and `inf`/`nan` are outside the model). -/
def parsePyFloat (s : String) : Option Rat :=
  match s.data with
  | '-' :: rest => (parseUnsignedFloat rest).map Neg.neg
  | '+' :: rest => parseUnsignedFloat rest
  | cs => parseUnsignedFloat cs

/-! ## Listings and the environment -/

/-- One normalized apartment listing as the scraper handles it: the code
passes listing dicts around with these keys. -/
structure Listing where
  url : String
  title : String
  district : String
  rooms : Rat
  area : Rat
  warm_rent : Rat
  available_from : String
  wbs_required : Bool
deriving DecidableEq

/-- Stable dedup identity of a listing, per spec section 3 derived from the
source URL (the code itself never computes an identity). -/
def Listing.identity (l : Listing) : String := l.url

/-- Process environment: `os.getenv` returns `None` for unset variables. -/
abbrev Env : Type := String → Option String

/-- Python `os.getenv(key, default)`. -/
def getenvD (env : Env) (k d : String) : String := (env k).getD d

/-! ## run.py — SearchParameters and the search cycle -/

/-- Mirrors `SearchParameters` as populated by `run.py load_search_params`. -/
structure SearchParameters where
  min_rooms : Rat
  max_rooms : Rat
  max_rent : Rat
  min_area : Option Rat
  districts : List String
  wbs_required : Bool
  wbs_type : Option String
  companies : List String
deriving DecidableEq

/-- Mirrors `run.py load_search_params`: every field is (re-)read from the
environment at call time; `float(...)` failures (ValueError) surface as
`none`; `MIN_AREA` falls back to `None` when unset or empty (Python
truthiness of the raw string). -/
def load_search_params (env : Env) : Option SearchParameters :=
  let districts := pySplit (getenvD env "DISTRICTS" "Mitte,Friedrichshain") ','
  let companies := pySplit (getenvD env "COMPANIES" "inberlinwohnen") ','
  match parsePyFloat (getenvD env "MIN_ROOMS" "2"),
        parsePyFloat (getenvD env "MAX_ROOMS" "3"),
        parsePyFloat (getenvD env "MAX_RENT" "1200") with
  | some minRooms, some maxRooms, some maxRent =>
    match (match env "MIN_AREA" with
           | none => some none
           | some s => if s = "" then some none else (parsePyFloat s).map some) with
    | some minArea =>
      some { min_rooms := minRooms
             max_rooms := maxRooms
             max_rent := maxRent
             min_area := minArea
             districts := districts.map pyStrip
             wbs_required := decide (pyLower (getenvD env "WBS_REQUIRED" "false") = "true")
             wbs_type := env "WBS_TYPE"
             companies := companies.map pyStrip }
    | none => none
  | _, _, _ => none

/-- Keyword arguments `run.py search_apartments` forwards to
`ApartmentSearchInterface.search_apartments`. -/
structure SearchQuery where
  min_rooms : Rat
  max_rooms : Rat
  max_rent : Rat
  min_area : Option Rat
  districts : List String
  wbs : Bool
  companies : List String
deriving DecidableEq

/-- The argument projection done at `run.py` lines 66-74. -/
def queryOfParams (p : SearchParameters) : SearchQuery :=
  { min_rooms := p.min_rooms
    max_rooms := p.max_rooms
    max_rent := p.max_rent
    min_area := p.min_area
    districts := p.districts
    wbs := p.wbs_required
    companies := p.companies }

/-- Mirrors the guard at `run.py` line 97:
`os.getenv('ENABLE_NOTIFICATIONS', 'false').lower() == 'true'`. -/
def notificationsEnabled (env : Env) : Bool :=
  decide (pyLower (getenvD env "ENABLE_NOTIFICATIONS" "false") = "true")

/-- Observable outcome of one `run.py search_apartments` cycle: the
parameters it used, the results it returned, and the batch (if any) it
passed to `NotificationManager.notify`. -/
structure CycleOutcome where
  paramsUsed : SearchParameters
  results : List Listing
  notifiedBatch : Option (List Listing)
deriving DecidableEq

/-- Mirrors `run.py search_apartments(notify)`: parameters are loaded from
the environment inside the call, the provider interface is queried with
them, and — when `notify` and `ENABLE_NOTIFICATIONS` hold — the **full**
result list is handed to `NotificationManager.notify`. Persistence of the
timestamped JSON/HTML report files does not influence any of these
observables and is modelled separately. `none` models the `ValueError`
escaping when a numeric environment variable fails to parse. -/
def search_apartments (env : Env) (fetch : SearchQuery → List Listing)
    (notifyFlag : Bool) : Option CycleOutcome :=
  match load_search_params env with
  | none => none
  | some params =>
    let results := fetch (queryOfParams params)
    some { paramsUsed := params
           results := results
           notifiedBatch :=
             if notifyFlag && notificationsEnabled env then some results else none }

/-- Batches passed to `NotificationManager.notify` across a sequence of
search cycles of one process (each cycle may see different provider
results; the environment is read afresh by each cycle). -/
def deliveredBatches (env : Env) (fetches : List (SearchQuery → List Listing))
    (notifyFlag : Bool) : List (List Listing) :=
  fetches.filterMap (fun f => (search_apartments env f notifyFlag).bind CycleOutcome.notifiedBatch)

/-- Number of delivered notification batches that contain a listing with
the given identity. -/
def timesDelivered (batches : List (List Listing)) (id : String) : Nat :=
  (batches.filter (fun b => b.any (fun l => Listing.identity l = id))).length

/-! ## main.py — BerlinHousingApp -/

/-- A Python exception value, identified by its class name. -/
structure PyExc where
  excName : String
deriving DecidableEq

/-- The `self.config` dict of `BerlinHousingApp` (keys populated by
`main.py load_config`). -/
structure Config where
  max_rent : Rat
  min_rooms : Rat
  max_rooms : Rat
  min_area : Option Rat
  districts : List String
  wbs : Bool
  companies : List String
  port : Nat
  mode : String
deriving DecidableEq

/-- Keyword arguments `main.py search` forwards to
`ApartmentSearchInterface.search_apartments` (lines 70-78). -/
def searchArgsOf (c : Config) : SearchQuery :=
  { min_rooms := c.min_rooms
    max_rooms := c.max_rooms
    max_rent := c.max_rent
    min_area := c.min_area
    districts := c.districts
    wbs := c.wbs
    companies := c.companies }

/-- The `results/` directory as the program observes it: file name to the
list of listings whose JSON encoding the file holds (for the dict-of-
primitives listings this program writes, `json.dump` / `json.load` is a
faithful round trip, so contents are modelled as the listing list itself).
The head of the list is the most recent write of a name. -/
abbrev FileStore : Type := List (String × List Listing)

/-- Overwriting file write. -/
def writeFile (fs : FileStore) (name : String) (contents : List Listing) : FileStore :=
  (name, contents) :: fs

/-- File read; `none` models `FileNotFoundError`. -/
def readFile : FileStore → String → Option (List Listing)
  | [], _ => none
  | (n, c) :: rest, name => if n = name then some c else readFile rest name

/-- Mirrors `main.py save_results` (lines 91-105): writes the timestamped
snapshot `results/apartments_<ts>.json`, then overwrites
`results/latest.json` with the same results. -/
def save_results (fs : FileStore) (ts : String) (results : List Listing) : FileStore :=
  writeFile (writeFile fs ("results/apartments_" ++ ts ++ ".json") results)
    "results/latest.json" results

/-- Mirrors the `/api/latest` route (lines 141-147): serve
`results/latest.json`, or `[]` on `FileNotFoundError`. -/
def api_latest (fs : FileStore) : List Listing :=
  match readFile fs "results/latest.json" with
  | some r => r
  | none => []

/-- Mirrors `BerlinHousingApp.search` (lines 65-89): the provider call and
`save_results` both sit inside one `try`; **any** exception from either
collaborator is caught and `[]` is returned. The provider interface and the
result persistence are collaborator parameters so the theorem can quantify
over their behaviors; a failing persistence leaves the store as it was
before the call (where exactly a partial write stops is irrelevant to every
property proved here). -/
def appSearch (cfg : Config) (iface : SearchQuery → Except PyExc (List Listing))
    (save : FileStore → List Listing → Except PyExc FileStore) (fs : FileStore) :
    Except PyExc (List Listing) × FileStore :=
  match iface (searchArgsOf cfg) with
  | Except.error _ => (Except.ok [], fs)
  | Except.ok results =>
    match save fs results with
    | Except.error _ => (Except.ok [], fs)
    | Except.ok fs2 => (Except.ok results, fs2)

/-- Mirrors `run_once` (lines 191-206): call `search`, print a report, and
return; an escaping exception (there is none, since `search` catches all)
would be the only way to end the process abnormally. -/
def run_once (cfg : Config) (iface : SearchQuery → Except PyExc (List Listing))
    (save : FileStore → List Listing → Except PyExc FileStore) (fs : FileStore) :
    Except PyExc Unit × FileStore :=
  ((appSearch cfg iface save fs).1.map (fun _ => ()), (appSearch cfg iface save fs).2)

/-- Exit status of a Python process whose `main` either returns normally
(status 0) or is terminated by an uncaught exception (status 1). -/
def exitStatus : Except PyExc Unit → Nat
  | Except.ok _ => 0
  | Except.error _ => 1

/-- Mirrors one iteration of the `run_worker` loop (lines 157-167): the
body runs `self.search()` and then sleeps 7200 seconds; the
`except Exception` arm sleeps 300 seconds instead. The returned value is
the number of seconds slept before the next cycle
(`KeyboardInterrupt`, which exits the loop, is not modelled). -/
def run_worker_sleep (cfg : Config) (iface : SearchQuery → Except PyExc (List Listing))
    (save : FileStore → List Listing → Except PyExc FileStore) (fs : FileStore) : Nat :=
  match (appSearch cfg iface save fs).1 with
  | Except.ok _ => 7200
  | Except.error _ => 300

/-- Observable trace of one `/api/search` request (lines 123-139): the
value `self.config` holds while `self.search()` runs, the value it holds
after the handler returns, the response body, and the store. -/
structure ApiSearchTrace where
  configDuring : Config
  configAfter : Config
  response : Except PyExc (List Listing)
  store : FileStore

/-- Mirrors the `/api/search` handler (lines 123-139) with the mutation of
`self.config` made explicit: read query parameters (falling back to the
shared config), copy the config, overwrite `max_rent` and `min_rooms` on
the shared config, run `self.search()` against it, then restore the saved
copy. -/
def api_search (cfg : Config) (iface : SearchQuery → Except PyExc (List Listing))
    (save : FileStore → List Listing → Except PyExc FileStore)
    (qMaxRent qMinRooms : Option Rat) (fs : FileStore) : ApiSearchTrace :=
  let maxRent := qMaxRent.getD cfg.max_rent
  let minRooms := qMinRooms.getD cfg.min_rooms
  let originalConfig := cfg
  let overridden := { cfg with max_rent := maxRent, min_rooms := minRooms }
  let sr := appSearch overridden iface save fs
  { configDuring := overridden
    configAfter := originalConfig
    response := sr.1
    store := sr.2 }

/-! ## main.py web mode — request handling model

`run_web` serves the Flask routes through `app.run(host, port)` (line 151);
on Flask 1.0 and later this defaults to `threaded=True`, so every incoming
request is handled at once on its own thread. The `api_search` handler
invokes `self.search()` unconditionally — it consults no running/idle
state (none exists in the program) — so a request arriving while another
cycle is still running immediately starts a second, concurrent cycle;
nothing is dropped, queued behind a guard, or deferred. The event model
below tracks the handler threads at the granularity of cycle starts and
cycle completions, which is what the scheduling claims quantify over: an
arrival appends its trigger to the in-flight cycles and to the invocation
log, a completion retires the oldest in-flight cycle. -/

/-- Query parameters of one `/api/search` trigger request
(`max_rent`, `min_rooms`). -/
abbrev Trigger : Type := Option Rat × Option Rat

/-- An event at the web server: a trigger request arrives (its handler
thread starts `self.search()` at once), or one running cycle completes. -/
inductive WebEvent where
  | arrive : Trigger → WebEvent
  | finish : WebEvent

/-- Web-server state: the cycles currently in flight (one per handler
thread still inside `self.search()`, oldest first) and the list of all
triggers whose `self.search()` invocation has started, in arrival order. -/
structure WebServerState where
  inFlight : List Trigger
  invoked : List Trigger

/-- Initial web-server state. -/
def webInit : WebServerState := { inFlight := [], invoked := [] }

/-- One step of the request-handling model described above: an arriving
trigger starts its own cycle immediately and unconditionally; a completion
retires the oldest in-flight cycle. -/
def webStep (s : WebServerState) : WebEvent → WebServerState
  | WebEvent.arrive t =>
    { s with inFlight := s.inFlight ++ [t], invoked := s.invoked ++ [t] }
  | WebEvent.finish =>
    { s with inFlight := s.inFlight.tail }

/-- Runs the web server over a sequence of events from the initial state. -/
def webRun (evs : List WebEvent) : WebServerState := evs.foldl webStep webInit

/-- The triggers of the arrival events of a sequence, in order. -/
def arrivalTriggers : List WebEvent → List Trigger
  | [] => []
  | WebEvent.arrive t :: rest => t :: arrivalTriggers rest
  | WebEvent.finish :: rest => arrivalTriggers rest

/-! ## Spec-modelled components: Deduplicator and SeenIndex

The repository contains no Deduplicator, SeenIndex, or SearchRunner
anywhere (neither under `src/` nor elsewhere); they exist only in the
specification. The definitions below are therefore taken from the spec's
words, as marked, and claims about them are settled against these models. -/

/-- The SeenIndex of spec section 3: listing identity to `lastSeenAt`. -/
abbrev SeenIndex : Type := List (String × Nat)

/-- First-match association lookup on a SeenIndex. -/
def lookupId : SeenIndex → String → Option Nat
  | [], _ => none
  | (k, v) :: rest, id => if k = id then some v else lookupId rest id

/-- One scrape outcome, spec section 3: capture timestamp plus the ordered
listing sequence (the criteria field plays no role in any claim settled
here). -/
structure ResultSet where
  capturedAt : Nat
  listings : List Listing
deriving DecidableEq

/-- Updates the `lastSeenAt` stamp of every entry for `id` to `t`. -/
def stampSeen (idx : SeenIndex) (id : String) (t : Nat) : SeenIndex :=
  idx.map (fun p => if p.1 = id then (p.1, t) else p)

/-- Modelled from the spec: the loop of `Deduplicator.filterNew`
(spec section 4.2) over the incoming listings — the repository has no
Deduplicator. For each listing in provider order: if its identity is not
in `previous`, emit it as new and add `(identity, capturedAt)`; otherwise
only refresh the `lastSeenAt` stamp. -/
def filterNewGo (previous : SeenIndex) (t : Nat) :
    List Listing → SeenIndex → List Listing × SeenIndex
  | [], idx => ([], idx)
  | l :: rest, idx =>
    if (lookupId previous (Listing.identity l)).isSome then
      filterNewGo previous t rest (stampSeen idx (Listing.identity l) t)
    else
      (l :: (filterNewGo previous t rest (idx ++ [(Listing.identity l, t)])).1,
        (filterNewGo previous t rest (idx ++ [(Listing.identity l, t)])).2)

/-- Modelled from the spec: `Deduplicator.filterNew(previous, incoming)`
of spec section 4.2 — the repository has no Deduplicator. -/
def filterNew (previous : SeenIndex) (incoming : ResultSet) :
    List Listing × SeenIndex :=
  filterNewGo previous incoming.capturedAt incoming.listings previous

/-- A persistence failure raised by `ResultStore.append`. -/
structure StoreError where
  errMsg : String
deriving DecidableEq

/-- Modelled from the spec: the SearchRunner persistence step of spec
sections 4.3-4.4 — the repository has no SearchRunner or ResultStore with
a SeenIndex. On `StoreError` from `append` the in-memory SeenIndex update
is rolled back (not committed); on success the updated index is
committed. Returns the SeenIndex the process holds after the cycle. -/
def seenAfterCycle (append : ResultSet → Except StoreError Unit)
    (seen : SeenIndex) (inc : ResultSet) : SeenIndex :=
  match append inc with
  | Except.error _ => seen
  | Except.ok _ => (filterNew seen inc).2

/-- Invariant carried through the `filterNew` loop: every entry of the
working index either still holds its value from `previous` or has already
been stamped with the capture time, and the working index covers every
identity `previous` covers. -/
def IdxInv (prev : SeenIndex) (t : Nat) (idx : SeenIndex) : Prop :=
  ∀ id, (lookupId idx id = lookupId prev id ∨ lookupId idx id = some t) ∧
    ((lookupId prev id).isSome → (lookupId idx id).isSome)

/-! ## Concrete instances used by witnesses and counterexamples -/

/-- Environment with notifications switched on and everything else unset. -/
def envNotif : Env := fun k => if k = "ENABLE_NOTIFICATIONS" then some "true" else none

/-- Environment with nothing set (all defaults). -/
def envEmpty : Env := fun _ => none

/-- Environment after an operator changed `MAX_RENT` mid-run. -/
def envRent900 : Env := fun k => if k = "MAX_RENT" then some "900" else none

/-- The `SearchParameters` the default environment produces. -/
def paramsDefault : SearchParameters :=
  { min_rooms := 2
    max_rooms := 3
    max_rent := 1200
    min_area := none
    districts := ["Mitte", "Friedrichshain"]
    wbs_required := false
    wbs_type := none
    companies := ["inberlinwohnen"] }

/-- A concrete listing. -/
def listingA : Listing :=
  { url := "https://example.org/a"
    title := "Apartment A"
    district := "Mitte"
    rooms := 2
    area := 50
    warm_rent := 900
    available_from := "sofort"
    wbs_required := false }

/-- A second concrete listing. -/
def listingB : Listing :=
  { url := "https://example.org/b"
    title := "Apartment B"
    district := "Mitte"
    rooms := 3
    area := 70
    warm_rent := 1100
    available_from := "sofort"
    wbs_required := false }

/-- A third concrete listing, unseen so far. -/
def listingC : Listing :=
  { url := "https://example.org/c"
    title := "Apartment C"
    district := "Friedrichshain"
    rooms := 2
    area := 55
    warm_rent := 950
    available_from := "sofort"
    wbs_required := false }

/-- A provider that keeps returning the same live listing every cycle. -/
def fetchA : SearchQuery → List Listing := fun _ => [listingA]

/-- SeenIndex already holding the identities of `listingA` and `listingB`. -/
def seenAB : SeenIndex :=
  [("https://example.org/a", 0), ("https://example.org/b", 0)]

/-- Incoming ResultSet carrying identities a, b and c at capture time 5. -/
def incomingABC : ResultSet :=
  { capturedAt := 5, listings := [listingA, listingB, listingC] }

/-- The default `BerlinHousingApp` configuration. -/
def cfgDefault : Config :=
  { max_rent := 1200
    min_rooms := 2
    max_rooms := 3
    min_area := none
    districts := ["Mitte", "Friedrichshain"]
    wbs := false
    companies := ["inberlinwohnen"]
    port := 8080
    mode := "web" }

/-- A provider interface call that succeeds with one listing. -/
def okIface : SearchQuery → Except PyExc (List Listing) := fun _ => Except.ok [listingA]

/-- A provider interface call that raises `FetchError`. -/
def failingIface : SearchQuery → Except PyExc (List Listing) :=
  fun _ => Except.error { excName := "FetchError" }

/-- Result persistence that succeeds, writing through `save_results`. -/
def okSave : FileStore → List Listing → Except PyExc FileStore :=
  fun fs r => Except.ok (save_results fs "20250101_000000" r)

/-- A `ResultStore.append` that always fails with `StoreError`. -/
def failingAppend : ResultSet → Except StoreError Unit :=
  fun _ => Except.error { errMsg := "disk full" }

/-- A trigger request with no query parameters. -/
def trigPlain : Trigger := (none, none)

/-- A trigger request overriding `max_rent`. -/
def trigCustom : Trigger := (some 900, none)

/-! ## Lemmas -/

theorem stampSeen_cons_self (k : String) (v : Nat) (rest : SeenIndex) (t : Nat) :
    stampSeen ((k, v) :: rest) k t = (k, t) :: stampSeen rest k t := by
  simp [stampSeen]

theorem stampSeen_cons_other (k : String) (v : Nat) (rest : SeenIndex)
    (id2 : String) (t : Nat) (h : ¬k = id2) :
    stampSeen ((k, v) :: rest) id2 t = (k, v) :: stampSeen rest id2 t := by
  simp [stampSeen, h]

theorem lookupId_stampSeen (idx : SeenIndex) (id id2 : String) (t : Nat) :
    lookupId (stampSeen idx id2 t) id =
      (lookupId idx id).map (fun v => if id = id2 then t else v) := by
  induction idx with
  | nil => rfl
  | cons p rest ih =>
    obtain ⟨k, v⟩ := p
    by_cases h2 : k = id2
    · subst h2
      rw [stampSeen_cons_self]
      by_cases hk : k = id
      · subst hk
        simp [lookupId]
      · simp [lookupId, hk, ih]
    · rw [stampSeen_cons_other _ _ _ _ _ h2]
      by_cases hk : k = id
      · subst hk
        simp [lookupId, h2]
      · simp [lookupId, hk, ih]

theorem lookupId_append (idx : SeenIndex) (id id2 : String) (t : Nat) :
    lookupId (idx ++ [(id2, t)]) id =
      match lookupId idx id with
      | some v => some v
      | none => if id2 = id then some t else none := by
  induction idx with
  | nil => simp [lookupId]
  | cons p rest ih =>
    obtain ⟨k, v⟩ := p
    by_cases hk : k = id <;> simp [lookupId, hk, ih]

theorem filterNewGo_fst (prev : SeenIndex) (t : Nat) (ls : List Listing) :
    ∀ idx, (filterNewGo prev t ls idx).1 =
      ls.filter (fun l => (lookupId prev (Listing.identity l)).isNone) := by
  induction ls with
  | nil => intro idx; rfl
  | cons x rest ih =>
    intro idx
    cases hseen : lookupId prev (Listing.identity x) with
    | some v => simp [filterNewGo, hseen, List.filter_cons, ih]
    | none => simp [filterNewGo, hseen, List.filter_cons, ih]

theorem filterNewGo_snd_keeps_stamp (prev : SeenIndex) (t : Nat) (ls : List Listing) :
    ∀ idx id, lookupId idx id = some t →
      lookupId (filterNewGo prev t ls idx).2 id = some t := by
  induction ls with
  | nil => intro idx id h; simpa [filterNewGo] using h
  | cons x rest ih =>
    intro idx id h
    by_cases hseen : (lookupId prev (Listing.identity x)).isSome
    · have hstep : lookupId (stampSeen idx (Listing.identity x) t) id = some t := by
        rw [lookupId_stampSeen, h]
        simp [ite_self]
      simpa [filterNewGo, hseen] using ih (stampSeen idx (Listing.identity x) t) id hstep
    · have hstep : lookupId (idx ++ [(Listing.identity x, t)]) id = some t := by
        rw [lookupId_append, h]
      simpa [filterNewGo, hseen] using ih (idx ++ [(Listing.identity x, t)]) id hstep

theorem IdxInv_stampSeen (prev : SeenIndex) (t : Nat) (idx : SeenIndex) (id2 : String)
    (h : IdxInv prev t idx) : IdxInv prev t (stampSeen idx id2 t) := by
  intro id
  obtain ⟨h1, h2⟩ := h id
  rw [lookupId_stampSeen]
  by_cases hid : id = id2
  · subst hid
    cases hl : lookupId idx id with
    | none =>
      rw [hl] at h1
      constructor
      · left
        rcases h1 with h1 | h1
        · rw [← h1]; rfl
        · cases h1
      · intro hp
        rw [hl] at h2
        cases h2 hp
    | some v => exact ⟨Or.inr (by simp), fun _ => by simp⟩
  · cases hl : lookupId idx id with
    | none =>
      rw [hl] at h1 h2
      exact ⟨by simpa using h1, fun hp => by cases h2 hp⟩
    | some v =>
      rw [hl] at h1 h2
      exact ⟨by simpa [hid] using h1, fun _ => by simp⟩

theorem IdxInv_append (prev : SeenIndex) (t : Nat) (idx : SeenIndex) (id2 : String)
    (h : IdxInv prev t idx) : IdxInv prev t (idx ++ [(id2, t)]) := by
  intro id
  obtain ⟨h1, h2⟩ := h id
  rw [lookupId_append]
  cases hl : lookupId idx id with
  | some v =>
    rw [hl] at h1 h2
    exact ⟨h1, fun _ => by simp⟩
  | none =>
    rw [hl] at h1 h2
    by_cases hid : id2 = id
    · exact ⟨Or.inr (by simp [hid]), fun _ => by simp [hid]⟩
    · refine ⟨by simpa [hid] using h1, fun hp => by cases h2 hp⟩

theorem filterNewGo_cons (prev : SeenIndex) (t : Nat) (x : Listing)
    (rest : List Listing) (idx : SeenIndex) :
    filterNewGo prev t (x :: rest) idx =
      if (lookupId prev (Listing.identity x)).isSome then
        filterNewGo prev t rest (stampSeen idx (Listing.identity x) t)
      else
        (x :: (filterNewGo prev t rest (idx ++ [(Listing.identity x, t)])).1,
          (filterNewGo prev t rest (idx ++ [(Listing.identity x, t)])).2) := rfl

theorem filterNewGo_snd_incoming (prev : SeenIndex) (t : Nat) (ls : List Listing) :
    ∀ idx, IdxInv prev t idx →
      ∀ l ∈ ls, lookupId (filterNewGo prev t ls idx).2 (Listing.identity l) = some t := by
  induction ls with
  | nil => intro idx _ l hl; simp at hl
  | cons x rest ih =>
    intro idx hinv l hl
    rcases List.mem_cons.mp hl with hlx | hlr
    · subst hlx
      by_cases hseen : (lookupId prev (Listing.identity l)).isSome
      · have hidx : (lookupId idx (Listing.identity l)).isSome := (hinv _).2 hseen
        obtain ⟨v, hv⟩ := Option.isSome_iff_exists.mp hidx
        have hstamped : lookupId (stampSeen idx (Listing.identity l) t)
            (Listing.identity l) = some t := by
          rw [lookupId_stampSeen, hv]
          simp
        rw [filterNewGo_cons, if_pos hseen]
        exact filterNewGo_snd_keeps_stamp prev t rest _ _ hstamped
      · have hprev : lookupId prev (Listing.identity l) = none :=
          Option.not_isSome_iff_eq_none.mp hseen
        have happ : lookupId (idx ++ [(Listing.identity l, t)])
            (Listing.identity l) = some t := by
          rcases (hinv (Listing.identity l)).1 with h1 | h1
          · rw [lookupId_append, h1, hprev]
            simp
          · rw [lookupId_append, h1]
        rw [filterNewGo_cons, if_neg hseen]
        exact filterNewGo_snd_keeps_stamp prev t rest _ _ happ
    · by_cases hseen : (lookupId prev (Listing.identity x)).isSome
      · rw [filterNewGo_cons, if_pos hseen]
        exact ih _ (IdxInv_stampSeen prev t idx _ hinv) l hlr
      · rw [filterNewGo_cons, if_neg hseen]
        exact ih _ (IdxInv_append prev t idx _ hinv) l hlr

theorem filterNewGo_snd_untouched (prev : SeenIndex) (t : Nat) (ls : List Listing) :
    ∀ idx id, id ∉ ls.map Listing.identity →
      lookupId (filterNewGo prev t ls idx).2 id = lookupId idx id := by
  induction ls with
  | nil => intro idx id _; rfl
  | cons x rest ih =>
    intro idx id hid
    rw [List.map_cons] at hid
    have hne : id ≠ Listing.identity x := fun h => hid (h ▸ List.mem_cons_self _ _)
    have hrest : id ∉ rest.map Listing.identity := fun h => hid (List.mem_cons_of_mem _ h)
    by_cases hseen : (lookupId prev (Listing.identity x)).isSome
    · rw [filterNewGo_cons, if_pos hseen, ih _ _ hrest, lookupId_stampSeen]
      cases hl : lookupId idx id <;> simp [hne]
    · rw [filterNewGo_cons, if_neg hseen]
      show lookupId (filterNewGo prev t rest (idx ++ [(Listing.identity x, t)])).2 id = _
      rw [ih _ _ hrest, lookupId_append]
      cases hl : lookupId idx id <;> simp [Ne.symm hne]

theorem IdxInv_init (prev : SeenIndex) (t : Nat) : IdxInv prev t prev :=
  fun _ => ⟨Or.inl rfl, fun h => h⟩

theorem appSearch_fst_isOk (cfg : Config)
    (iface : SearchQuery → Except PyExc (List Listing))
    (save : FileStore → List Listing → Except PyExc FileStore) (fs : FileStore) :
    ∃ l, (appSearch cfg iface save fs).1 = Except.ok l := by
  cases h1 : iface (searchArgsOf cfg) with
  | error e => exact ⟨[], by simp [appSearch, h1]⟩
  | ok results =>
    cases h2 : save fs results with
    | error e => exact ⟨[], by simp [appSearch, h1, h2]⟩
    | ok fs2 => exact ⟨results, by simp [appSearch, h1, h2]⟩

theorem webFold_invoked (evs : List WebEvent) :
    ∀ s : WebServerState,
      (evs.foldl webStep s).invoked = s.invoked ++ arrivalTriggers evs := by
  induction evs with
  | nil => intro s; simp [arrivalTriggers]
  | cons e rest ih =>
    intro s
    rw [List.foldl_cons]
    cases e with
    | arrive t =>
      rw [ih]
      simp [webStep, arrivalTriggers]
    | finish =>
      rw [ih]
      simp [webStep, arrivalTriggers]

/-! ## Claims -/

/-- C1, counterexample: the code delivers a live listing again on every
later cycle. With notifications enabled and a provider returning the same
listing in two consecutive cycles, `run.py` passes listing `a` to
`NotificationManager.notify` twice — not at most once as claimed. -/
theorem notify_repeats_delivery_cex :
    timesDelivered (deliveredBatches envNotif [fetchA, fetchA] true)
      (Listing.identity listingA) = 2 ∧
    ¬ timesDelivered (deliveredBatches envNotif [fetchA, fetchA] true)
      (Listing.identity listingA) ≤ 1 := by
  decide

/-- C1 (amended): `run.py search_apartments` passes the **entire** result
list of every cycle to `NotificationManager.notify` whenever notifications
are enabled; consequently a listing identity is delivered once per cycle
whose results contain it — there is no SeenIndex and no
first-appearance-only delivery in the program. -/
theorem notify_delivers_full_results_each_cycle (env : Env) (p : SearchParameters)
    (fetches : List (SearchQuery → List Listing))
    (hp : load_search_params env = some p) (hn : notificationsEnabled env = true) :
    deliveredBatches env fetches true = fetches.map (fun f => f (queryOfParams p)) ∧
    ∀ id, timesDelivered (deliveredBatches env fetches true) id =
      (fetches.filter (fun f =>
        (f (queryOfParams p)).any (fun l => Listing.identity l = id))).length := by
  have hbatches : deliveredBatches env fetches true =
      fetches.map (fun f => f (queryOfParams p)) := by
    induction fetches with
    | nil => rfl
    | cons f rest ih =>
      have hg : (search_apartments env f true).bind CycleOutcome.notifiedBatch =
          some (f (queryOfParams p)) := by
        simp [search_apartments, hp, hn]
      simp only [deliveredBatches] at ih
      simp only [deliveredBatches, List.filterMap_cons, hg, ih, List.map_cons]
  refine ⟨hbatches, fun id => ?_⟩
  rw [hbatches]
  simp only [timesDelivered, List.filter_map, List.length_map]
  rfl

/-- C1 witness: instantiates the amended statement on the concrete
environment with notifications enabled and two cycles both returning
listing `a`. -/
theorem notify_delivers_full_results_each_cycle_witness :
    deliveredBatches envNotif [fetchA, fetchA] true = [[listingA], [listingA]] := by
  exact (notify_delivers_full_results_each_cycle envNotif paramsDefault
    [fetchA, fetchA] (by decide) (by decide)).1

/-- C2: `Deduplicator.filterNew` (spec-modelled, the repository has no such
component) emits exactly the incoming listings whose identity is absent
from the previous index, in provider order; every incoming identity ends
up stamped with `incoming.capturedAt` in the updated index; identities not
in the incoming set keep their previous entry; and on
`previous = {a, b}`, `incoming = {a, b, c}` the new listings are `[c]`. -/
theorem filterNew_new_exactly_unseen (prev : SeenIndex) (inc : ResultSet) :
    (filterNew prev inc).1 =
      inc.listings.filter (fun l => (lookupId prev (Listing.identity l)).isNone) ∧
    (∀ l ∈ inc.listings,
      lookupId (filterNew prev inc).2 (Listing.identity l) = some inc.capturedAt) ∧
    (∀ id, id ∉ inc.listings.map Listing.identity →
      lookupId (filterNew prev inc).2 id = lookupId prev id) ∧
    (filterNew seenAB incomingABC).1 = [listingC] := by
  refine ⟨filterNewGo_fst prev inc.capturedAt inc.listings prev,
    fun l hl => filterNewGo_snd_incoming prev inc.capturedAt inc.listings prev
      (IdxInv_init prev inc.capturedAt) l hl,
    fun id hid => filterNewGo_snd_untouched prev inc.capturedAt inc.listings prev id hid,
    by decide⟩

/-- C2 witness: the characterization applied to the concrete scenario
`previous = {a, b}`, `incoming = {a, b, c}` captured at time 5. -/
theorem filterNew_new_exactly_unseen_witness :
    lookupId (filterNew seenAB incomingABC).2 "https://example.org/a" = some 5 ∧
    lookupId (filterNew seenAB incomingABC).2 "https://example.org/z" =
      lookupId seenAB "https://example.org/z" ∧
    (filterNew seenAB incomingABC).1 = [listingC] := by
  have h := filterNew_new_exactly_unseen seenAB incomingABC
  exact ⟨h.2.1 listingA (by decide), h.2.2.1 "https://example.org/z" (by decide), h.2.2.2⟩

/-- C3, counterexample: an `/api/search` request with `max_rent=900` makes
the handler overwrite the shared `self.config` (the config the inner
`self.search()` observes differs from the constructed one) and restore it
afterwards — the override/restore pattern the claim says does not exist. -/
theorem api_search_mutates_shared_config_cex :
    (api_search cfgDefault okIface okSave (some 900) none []).configDuring ≠ cfgDefault ∧
    (api_search cfgDefault okIface okSave (some 900) none []).configAfter = cfgDefault := by
  constructor
  · decide
  · rfl

/-- C3 (amended): `api_search` handles a parameterized request by
temporarily overwriting `max_rent` and `min_rooms` on the shared config,
running `self.search()` against the mutated shared config, and then
restoring the saved copy — criteria are shared mutable state, not a
per-call argument. -/
theorem api_search_overrides_and_restores (cfg : Config)
    (iface : SearchQuery → Except PyExc (List Listing))
    (save : FileStore → List Listing → Except PyExc FileStore)
    (r : Rat) (qMinRooms : Option Rat) (fs : FileStore) (h : r ≠ cfg.max_rent) :
    (api_search cfg iface save (some r) qMinRooms fs).configDuring ≠ cfg ∧
    (api_search cfg iface save (some r) qMinRooms fs).configAfter = cfg ∧
    (api_search cfg iface save (some r) qMinRooms fs).response =
      (appSearch (api_search cfg iface save (some r) qMinRooms fs).configDuring
        iface save fs).1 := by
  refine ⟨fun hEq => h (congrArg Config.max_rent hEq), rfl, rfl⟩

/-- C3 witness: the amended statement applied at the default config and a
`max_rent=900` request. -/
theorem api_search_overrides_and_restores_witness :
    (api_search cfgDefault okIface okSave (some 900) none []).configAfter = cfgDefault :=
  (api_search_overrides_and_restores cfgDefault okIface okSave 900 none []
    (by decide)).2.1

/-- C4, counterexample: with the first cycle still in flight (no
completion has happened), a second trigger immediately starts a second
concurrent `self.search()` invocation — two cycles are in flight at once,
so the overlapping trigger was neither dropped nor kept from causing a
second concurrent SearchRunner invocation. -/
theorem web_overlapping_trigger_second_invocation_cex :
    (webRun [WebEvent.arrive trigPlain, WebEvent.arrive trigCustom]).inFlight =
      [trigPlain, trigCustom] ∧
    (webRun [WebEvent.arrive trigPlain, WebEvent.arrive trigCustom]).invoked =
      [trigPlain, trigCustom] ∧
    ¬ (webRun [WebEvent.arrive trigPlain, WebEvent.arrive trigCustom]).inFlight.length ≤ 1 := by
  refine ⟨rfl, rfl, ?_⟩
  decide

/-- C4 (amended): the web mode has neither coalescing nor mutual
exclusion: `api_search` invokes `self.search()` unconditionally, and the
threaded server starts every handler at arrival, so an arrival always
starts one more concurrent in-flight cycle regardless of the current
state, and across any event sequence the invocations are exactly the
arrivals in order — no trigger is dropped or deferred. -/
theorem web_trigger_always_invokes_concurrently (evs : List WebEvent) :
    (webRun evs).invoked = arrivalTriggers evs ∧
    ∀ (s : WebServerState) (t : Trigger),
      (webStep s (WebEvent.arrive t)).inFlight = s.inFlight ++ [t] ∧
      (webStep s (WebEvent.arrive t)).invoked = s.invoked ++ [t] := by
  refine ⟨?_, fun s t => ⟨rfl, rfl⟩⟩
  have h := webFold_invoked evs webInit
  simpa [webRun, webInit] using h

/-- C5, counterexample: with startup environment empty (criteria built with
`MAX_RENT` defaulting to 1200), a cycle run after the environment changed
to `MAX_RENT=900` uses criteria different from the startup criteria. -/
theorem config_change_alters_cycle_params_cex :
    (search_apartments envRent900 fetchA true).map CycleOutcome.paramsUsed ≠
      load_search_params envEmpty := by
  decide

/-- C5 (amended): `run.py search_apartments` re-reads the configuration
source on every invocation — the criteria a cycle uses are exactly those
`load_search_params` parses from the environment at cycle time, so two
environments that parse differently give cycles with different criteria. -/
theorem config_reread_every_cycle (env1 env2 : Env)
    (fetch : SearchQuery → List Listing) (b : Bool)
    (h : load_search_params env1 ≠ load_search_params env2) :
    (search_apartments env2 fetch b).map CycleOutcome.paramsUsed =
      load_search_params env2 ∧
    (search_apartments env2 fetch b).map CycleOutcome.paramsUsed ≠
      load_search_params env1 := by
  have hmap : (search_apartments env2 fetch b).map CycleOutcome.paramsUsed =
      load_search_params env2 := by
    cases hl : load_search_params env2 <;> simp [search_apartments, hl]
  exact ⟨hmap, by rw [hmap]; exact fun hEq => h hEq.symm⟩

/-- C5 witness: the amended statement applied to the empty startup
environment and the changed `MAX_RENT=900` environment. -/
theorem config_reread_every_cycle_witness :
    (search_apartments envRent900 fetchA true).map CycleOutcome.paramsUsed =
      load_search_params envRent900 ∧
    (search_apartments envRent900 fetchA true).map CycleOutcome.paramsUsed ≠
      load_search_params envEmpty :=
  config_reread_every_cycle envEmpty envRent900 fetchA true (by decide)

/-- C6, counterexample: in `once` mode a provider `FetchError` is swallowed
inside `search` (which returns `[]`), `run_once` returns normally, and the
process completion status is 0 — not non-zero as claimed. -/
theorem run_once_fetch_error_exit_zero_cex :
    exitStatus (run_once cfgDefault failingIface okSave []).1 = 0 := by
  rfl

/-- C6 (amended): in `once` mode the process always completes with status
0: every exception of the provider interface or of persistence is caught
inside `search`, so `run_once` returns normally for every collaborator
behavior, including a `FetchError`. -/
theorem run_once_always_exits_zero (cfg : Config)
    (iface : SearchQuery → Except PyExc (List Listing))
    (save : FileStore → List Listing → Except PyExc FileStore) (fs : FileStore) :
    exitStatus (run_once cfg iface save fs).1 = 0 := by
  obtain ⟨l, hl⟩ := appSearch_fst_isOk cfg iface save fs
  simp [run_once, hl, exitStatus, Except.map]

/-- C7, counterexample: after a cycle whose provider fetch raises
`FetchError`, the worker sleeps the full 7200-second interval — because
`search` swallows the exception, the body completes normally and the
300-second cooldown branch is not taken; the wait is not shorter than the
normal interval. -/
theorem worker_fetch_error_full_sleep_cex :
    run_worker_sleep cfgDefault failingIface okSave [] = 7200 ∧
    ¬ run_worker_sleep cfgDefault failingIface okSave [] < 7200 := by
  decide

/-- C7 (amended): the worker sleeps exactly the fixed 7200-second interval
after **every** cycle, failed or not: `search` catches every exception, so
the `except` arm with the 300-second cooldown is unreachable from
collaborator failures, and the schedule is relative (sleep-after-cycle)
rather than anchored to original trigger times. -/
theorem worker_sleeps_full_interval_always (cfg : Config)
    (iface : SearchQuery → Except PyExc (List Listing))
    (save : FileStore → List Listing → Except PyExc FileStore) (fs : FileStore) :
    run_worker_sleep cfg iface save fs = 7200 := by
  obtain ⟨l, hl⟩ := appSearch_fst_isOk cfg iface save fs
  simp [run_worker_sleep, hl]

/-- C8: `save_results` followed by `api_latest` returns exactly the
appended results — the `latest` pointer always reflects the most recent
completed append. -/
theorem save_then_latest_roundtrip (fs : FileStore) (ts : String)
    (results : List Listing) :
    api_latest (save_results fs ts results) = results := by
  simp [api_latest, save_results, writeFile, readFile]

/-- C8 witness: the round trip evaluated on a concrete store, timestamp
and result list. -/
theorem save_then_latest_roundtrip_witness :
    api_latest (save_results [] "20250101_000000" [listingA]) = [listingA] :=
  save_then_latest_roundtrip [] "20250101_000000" [listingA]

/-- C9: a `StoreError` during `append` leaves the in-memory SeenIndex
unchanged (spec-modelled rollback, the repository has no SeenIndex), so a
later retry classifies the same incoming listings as new again. -/
theorem store_error_leaves_seen_unchanged
    (append : ResultSet → Except StoreError Unit) (seen : SeenIndex)
    (inc : ResultSet) (e : StoreError) (h : append inc = Except.error e) :
    seenAfterCycle append seen inc = seen ∧
    (filterNew (seenAfterCycle append seen inc) inc).1 = (filterNew seen inc).1 := by
  simp [seenAfterCycle, h]

/-- C9 witness: the rollback applied to a concrete always-failing append
on the `{a, b}` index with the `{a, b, c}` incoming set. -/
theorem store_error_leaves_seen_unchanged_witness :
    seenAfterCycle failingAppend seenAB incomingABC = seenAB ∧
    (filterNew (seenAfterCycle failingAppend seenAB incomingABC) incomingABC).1 =
      (filterNew seenAB incomingABC).1 :=
  store_error_leaves_seen_unchanged failingAppend seenAB incomingABC
    { errMsg := "disk full" } rfl

/-- C10: `BerlinHousingApp.search` never propagates an exception: for every
provider-interface and persistence behavior it returns normally; a raised
provider or persistence exception yields `[]`, which is exactly what a
successful cycle with zero matches also yields, so the caller cannot tell
the two apart. -/
theorem search_swallows_all_exceptions :
    (∀ cfg iface save fs, ∃ l, (appSearch cfg iface save fs).1 = Except.ok l) ∧
    (∀ (cfg : Config) (e : PyExc) save fs,
      (appSearch cfg (fun _ => Except.error e) save fs).1 = Except.ok []) ∧
    (∀ (cfg : Config) iface (e : PyExc) (fs : FileStore),
      (appSearch cfg iface (fun _ _ => Except.error e) fs).1 = Except.ok []) ∧
    (∀ (cfg : Config) save (fs : FileStore),
      (appSearch cfg (fun _ => Except.ok []) save fs).1 = Except.ok []) := by
  refine ⟨fun cfg iface save fs => appSearch_fst_isOk cfg iface save fs, ?_, ?_, ?_⟩
  · intro cfg e save fs
    simp [appSearch]
  · intro cfg iface e fs
    cases h1 : iface (searchArgsOf cfg) with
    | error e2 => simp [appSearch, h1]
    | ok results => simp [appSearch, h1]
  · intro cfg save fs
    cases h2 : save fs [] with
    | error e2 => simp [appSearch, h2]
    | ok fs2 => simp [appSearch, h2]
